import Mathlib

/-!
Verification of the feple-server ingestion-and-persistence pipeline.

Shallow embedding of:
- `apps/callytics/clients.py` (`call_callytics`)
- `apps/callytics/tasks.py` (`run_callytics_pipeline`)
- `apps/callytics/models.py` (`Topic`, `File`, `Utterance` and the
  frame-to-seconds derived properties)
- `apps/callytics/views.py` / `apps/callytics/serializers.py`
  (the upload boundary's metadata construction)
- `apps/consultlytics/models.py` (uniqueness constraints)

JSON documents are association lists of `JValue`s; Django rows are Lean
structures; the database is in-memory lists with explicit auto-increment
counters.  Every ORM `create` call commits immediately (the source wraps
nothing in a transaction), which the embedding mirrors by threading the
database state through each insert and returning the state reached so far
even when a later step fails.  Machine floats are modelled as rationals.
-/

/-- A JSON-like value, as returned by the external analysis service. -/
inductive JValue where
  | jnull
  | jbool (b : Bool)
  | jint (n : Int)
  | jnum (q : ℚ)
  | jstr (s : String)
  | jarr (vs : List JValue)
  | jobj (fields : List (String × JValue))

/-- A Python dict with string keys, as used for `result` and `metadata`. -/
abbrev Jdict := List (String × JValue)

/-- `d[k]` lookup on a Python dict: first binding of the key, if any. -/
def lookupKey (d : Jdict) (k : String) : Option JValue :=
  match d.find? (fun p => p.fst == k) with
  | some p => some p.snd
  | none => none

/-- Python truthiness, as used by the `or` in
`metadata.get("topic_name") or result.get("topic")` (tasks.py line 33):
`None`, `False`, `0`, `""`, `[]`, `{}` are falsy. -/
def JValue.truthy : JValue → Bool
  | .jnull => false
  | .jbool b => b
  | .jint n => if n = 0 then false else true
  | .jnum q => if q = 0 then false else true
  | .jstr s => if s = "" then false else true
  | .jarr vs => !vs.isEmpty
  | .jobj fs => !fs.isEmpty

/-- The string payload of a `JValue`, when it is a string. -/
def JValue.asString : JValue → Option String
  | .jstr s => some s
  | _ => none

/-- Failures of the HTTP client `call_callytics` (clients.py):
opening the local file, sending the request, a non-success status from
`raise_for_status`, or a body `resp.json()` cannot parse. -/
inductive ClientFailure where
  | ioFailure
  | networkFailure
  | remoteError (status : Nat)
  | parseFailure
deriving DecidableEq

/-- Failures of the pipeline task: a client failure, a `KeyError` on a
missing dict key (`result["k"]`), or a type mismatch rejected when a value
is prepared for a typed column. -/
inductive PipelineError where
  | clientError (e : ClientFailure)
  | keyError (k : String)
  | typeError (k : String)
deriving DecidableEq

/-- `result[k]` expected to be a string (Django `CharField`/`TextField`):
`KeyError` when absent. -/
def getStr (d : Jdict) (k : String) : Except PipelineError String :=
  match lookupKey d k with
  | none => .error (.keyError k)
  | some (.jstr s) => .ok s
  | some _ => .error (.typeError k)

/-- `result[k]` expected to be an integer (Django `IntegerField` /
`BigIntegerField`): `KeyError` when absent. -/
def getInt (d : Jdict) (k : String) : Except PipelineError Int :=
  match lookupKey d k with
  | none => .error (.keyError k)
  | some (.jint n) => .ok n
  | some _ => .error (.typeError k)

/-- `result[k]` expected to be numeric (Django `FloatField`): `KeyError`
when absent; integers are accepted and widened. -/
def getRat (d : Jdict) (k : String) : Except PipelineError ℚ :=
  match lookupKey d k with
  | none => .error (.keyError k)
  | some (.jint n) => .ok (n : ℚ)
  | some (.jnum q) => .ok q
  | some _ => .error (.typeError k)

/-- `result[k]` expected to be a boolean (Django `BooleanField`):
`KeyError` when absent. -/
def getBool (d : Jdict) (k : String) : Except PipelineError Bool :=
  match lookupKey d k with
  | none => .error (.keyError k)
  | some (.jbool b) => .ok b
  | some _ => .error (.typeError k)

/-- `result[k]` stored verbatim (Django `JSONField`): only a `KeyError` is
possible. -/
def getJson (d : Jdict) (k : String) : Except PipelineError JValue :=
  match lookupKey d k with
  | none => .error (.keyError k)
  | some v => .ok v

/-- `result.get("summary", "")` (tasks.py line 59): defaults to the empty
string when absent, never a `KeyError`. -/
def getSummary (d : Jdict) : Except PipelineError String :=
  match lookupKey d "summary" with
  | none => .ok ""
  | some (.jstr s) => .ok s
  | some _ => .error (.typeError "summary")

/-- The values pulled out of `result` for the `File.objects.create` call in
tasks.py lines 38-62, in the source's keyword-argument order (`path` and
`topic` are not read from `result` and are supplied separately). -/
structure FileFields where
  name : String
  extension : String
  rate : Int
  bit_depth : Int
  channels : Int
  duration : Int
  min_freq : Int
  max_freq : Int
  rms_loud : ℚ
  zero_cross : Int
  spec_cent : Int
  spec_bw : Int
  spec_flat : Int
  rolloff : Int
  chroma_stft : JValue
  spec_contr : JValue
  tonnetz : JValue
  mfcc : JValue
  summary : String
  conflict : Bool
  silence : Int

/-- Extraction of the `File.objects.create` keyword arguments from
`result`, evaluated left to right exactly as Python evaluates the keyword
arguments in tasks.py lines 38-62; the first missing key raises
`KeyError`, before any row is written. -/
def extractFileFields (r : Jdict) : Except PipelineError FileFields := do
  let name ← getStr r "name"
  let extension ← getStr r "extension"
  let rate ← getInt r "rate"
  let bit_depth ← getInt r "bit_depth"
  let channels ← getInt r "channels"
  let duration ← getInt r "duration"
  let min_freq ← getInt r "min_freq"
  let max_freq ← getInt r "max_freq"
  let rms_loud ← getRat r "rms_loud"
  let zero_cross ← getInt r "zero_cross"
  let spec_cent ← getInt r "spec_cent"
  let spec_bw ← getInt r "spec_bw"
  let spec_flat ← getInt r "spec_flat"
  let rolloff ← getInt r "rolloff"
  let chroma_stft ← getJson r "chroma_stft"
  let spec_contr ← getJson r "spec_contr"
  let tonnetz ← getJson r "tonnetz"
  let mfcc ← getJson r "mfcc"
  let summary ← getSummary r
  let conflict ← getBool r "conflict"
  let silence ← getInt r "silence"
  return { name, extension, rate, bit_depth, channels, duration,
           min_freq, max_freq, rms_loud, zero_cross, spec_cent, spec_bw,
           spec_flat, rolloff, chroma_stft, spec_contr, tonnetz, mfcc,
           summary, conflict, silence }

/-- The required top-level `result` keys of the `File` row, i.e. the keys
accessed with `result[k]` (not `.get`) in tasks.py lines 38-62. -/
def requiredFileKeys : List String :=
  ["name", "extension", "rate", "bit_depth", "channels", "duration",
   "min_freq", "max_freq", "rms_loud", "zero_cross", "spec_cent",
   "spec_bw", "spec_flat", "rolloff", "chroma_stft", "spec_contr",
   "tonnetz", "mfcc", "conflict", "silence"]

/-- The values pulled out of one entry of `result["utterances"]` for the
`Utterance.objects.create` call in tasks.py lines 65-75. -/
structure UttFields where
  speaker : String
  sequence : Int
  start_time : Int
  end_time : Int
  content : String
  sentiment : String
  profane : Bool
deriving DecidableEq

/-- Extraction of the `Utterance.objects.create` keyword arguments from
one utterance entry (tasks.py lines 66-75); a non-dict entry fails the
subscripting outright. -/
def extractUttFields (u : JValue) : Except PipelineError UttFields :=
  match u with
  | .jobj d => do
      let speaker ← getStr d "speaker"
      let sequence ← getInt d "sequence"
      let start_time ← getInt d "start_time"
      let end_time ← getInt d "end_time"
      let content ← getStr d "content"
      let sentiment ← getStr d "sentiment"
      let profane ← getBool d "profane"
      return { speaker, sequence, start_time, end_time, content,
               sentiment, profane }
  | _ => .error (.typeError "utterance")

/-- A row of the `Topic` table (models.py): auto `id` primary key plus a
name; the name carries no uniqueness constraint. -/
structure TopicRow where
  id : Nat
  name : String
deriving DecidableEq

/-- A row of the `File` table (models.py lines 66-88), with the automatic
`id` primary key and the `topic` foreign key as the referenced `Topic.id`.
The `created_at` auto timestamp is outside the model. -/
structure FileRow where
  id : Nat
  name : String
  topic : Nat
  extension : String
  path : String
  rate : Int
  bit_depth : Int
  channels : Int
  duration : Int
  min_freq : Int
  max_freq : Int
  rms_loud : ℚ
  zero_cross : Int
  spec_cent : Int
  spec_bw : Int
  spec_flat : Int
  rolloff : Int
  chroma_stft : JValue
  spec_contr : JValue
  tonnetz : JValue
  mfcc : JValue
  summary : String
  conflict : Bool
  silence : Int

/-- A row of the `Utterance` table (models.py lines 115-133), with the
automatic `id` primary key and the `file` foreign key as the referenced
`File.id`. -/
structure UtteranceRow where
  id : Nat
  file : Nat
  speaker : String
  sequence : Int
  start_time : Int
  end_time : Int
  content : String
  sentiment : String
  profane : Bool
deriving DecidableEq

/-- Build the `File` row from the extracted fields, the fresh primary key,
the resolved topic id and the task's `audio_path` (stored as `path`). -/
def buildFileRow (fid tid : Nat) (path : String) (ff : FileFields) : FileRow :=
  { id := fid, name := ff.name, topic := tid, extension := ff.extension,
    path := path, rate := ff.rate, bit_depth := ff.bit_depth,
    channels := ff.channels, duration := ff.duration,
    min_freq := ff.min_freq, max_freq := ff.max_freq,
    rms_loud := ff.rms_loud, zero_cross := ff.zero_cross,
    spec_cent := ff.spec_cent, spec_bw := ff.spec_bw,
    spec_flat := ff.spec_flat, rolloff := ff.rolloff,
    chroma_stft := ff.chroma_stft, spec_contr := ff.spec_contr,
    tonnetz := ff.tonnetz, mfcc := ff.mfcc, summary := ff.summary,
    conflict := ff.conflict, silence := ff.silence }

/-- Build the `Utterance` row from the extracted fields, the fresh primary
key `uid` and the owning file's id `fid`. -/
def buildUtt (fid uid : Nat) (ff : UttFields) : UtteranceRow :=
  { id := uid, file := fid, speaker := ff.speaker,
    sequence := ff.sequence, start_time := ff.start_time,
    end_time := ff.end_time, content := ff.content,
    sentiment := ff.sentiment, profane := ff.profane }

/-- One `Utterance.objects.create` argument evaluation: the row that would
be inserted for entry `u` with fresh primary key `uid`, or the error the
argument evaluation raises. -/
def mkUtterance (fid : Nat) (u : JValue) (uid : Nat) :
    Except PipelineError UtteranceRow :=
  (extractUttFields u).map (buildUtt fid uid)

/-- The Family-A database: the three callytics tables plus auto-increment
counters for the three primary keys. -/
structure DB where
  topics : List TopicRow
  files : List FileRow
  utterances : List UtteranceRow
  nextTopicId : Nat
  nextFileId : Nat
  nextUttId : Nat

/-- An empty database. -/
def emptyDB : DB :=
  { topics := [], files := [], utterances := [],
    nextTopicId := 0, nextFileId := 0, nextUttId := 0 }

/-- `Topic.objects.get_or_create(name=topic_name)` (tasks.py line 35):
look the name up by exact match; create a fresh row only when absent.
Returns the topic's id and the (possibly unchanged) database. -/
def getOrCreateTopic (name : String) (db : DB) : Nat × DB :=
  match db.topics.find? (fun t => t.name == name) with
  | some t => (t.id, db)
  | none =>
      (db.nextTopicId,
       { db with topics := db.topics ++ [{ id := db.nextTopicId, name := name }],
                 nextTopicId := db.nextTopicId + 1 })

/-- `topic_name = metadata.get("topic_name") or result.get("topic")`
(tasks.py line 33), with Python `or` short-circuiting on truthiness. -/
def resolveTopicName (metadata result : Jdict) : JValue :=
  let a := (lookupKey metadata "topic_name").getD .jnull
  if a.truthy then a else (lookupKey result "topic").getD .jnull

/-- The `Utterance.objects.create` loop of tasks.py lines 65-75.  Each
created row commits at once (there is no enclosing transaction), so on a
failed entry the rows already written stay in the returned database. -/
def insertUtterances (fid : Nat) (us : List JValue) (db : DB) :
    Except PipelineError Unit × DB :=
  match us with
  | [] => (.ok (), db)
  | u :: rest =>
      match mkUtterance fid u db.nextUttId with
      | .error e => (.error e, db)
      | .ok row =>
          insertUtterances fid rest
            { db with utterances := db.utterances ++ [row],
                      nextUttId := db.nextUttId + 1 }

/-- The `result.get("utterances", [])` iterable (tasks.py line 65), as the
list of entries the loop runs over (empty when the key is absent or the
value is not an array). -/
def utterancesOf (r : Jdict) : List JValue :=
  match lookupKey r "utterances" with
  | some (.jarr vs) => vs
  | _ => []

/-- The utterance phase of the pipeline: iterate
`result.get("utterances", [])` (tasks.py lines 65-75) against the
database as it stands after the `File` row committed, then return the new
`File.id`.  A present non-array value fails the iteration itself. -/
def persistUtterances (fid : Nat) (result : Jdict) (db2 : DB) :
    Except PipelineError Nat × DB :=
  match lookupKey result "utterances" with
  | some (.jarr vs) =>
      (match insertUtterances fid vs db2 with
       | (.ok _, db3) => (.ok fid, db3)
       | (.error e, db3) => (.error e, db3))
  | some _ => (.error (.typeError "utterances"), db2)
  | none => (.ok fid, db2)

/-- The persistence phase of `run_callytics_pipeline` (tasks.py lines
33-77): resolve the topic, create the `File` row, create one `Utterance`
row per entry, return the new `File.id`.  There is no transaction in the
source, so every insert commits immediately: the returned database always
reflects all rows written up to the point of success or failure. -/
def persist (audio_path : String) (metadata result : Jdict) (db : DB) :
    Except PipelineError Nat × DB :=
  match (resolveTopicName metadata result).asString with
  | none => (.error (.typeError "topic_name"), db)
  | some tname =>
      match getOrCreateTopic tname db with
      | (tid, db1) =>
          match extractFileFields result with
          | .error e => (.error e, db1)
          | .ok ff =>
              persistUtterances db1.nextFileId result
                { db1 with
                  files := db1.files ++
                    [buildFileRow db1.nextFileId tid audio_path ff],
                  nextFileId := db1.nextFileId + 1 }

/-- The observable outcome of the single HTTP POST in clients.py: either
no response arrives (connection error or timeout) or a response with a
status code and a body that may or may not parse as a JSON object. -/
structure HttpResponse where
  status : Nat
  body : Option Jdict

/-- Network outcome of the POST request. -/
inductive NetOutcome where
  | noResponse
  | response (r : HttpResponse)

/-- The external world `call_callytics` interacts with: whether the local
audio file can be opened, and what the network does. -/
structure World where
  fileReadable : Bool
  net : NetOutcome

/-- `call_callytics` (clients.py lines 20-40): open the file, POST it,
`raise_for_status()` (which raises for every 4xx/5xx status), then parse
the body with `resp.json()`.  Each failure propagates as an exception,
modelled as the corresponding `ClientFailure`. -/
def call_callytics (w : World) (audio_path : String) (metadata : Jdict) :
    Except ClientFailure Jdict :=
  if w.fileReadable = false then .error .ioFailure
  else
    match w.net with
    | .noResponse => .error .networkFailure
    | .response r =>
        if 400 ≤ r.status then .error (.remoteError r.status)
        else
          match r.body with
          | none => .error .parseFailure
          | some doc => .ok doc

/-- `run_callytics_pipeline` (tasks.py lines 25-77): call the external
service, then persist.  A client failure propagates before any model
object is touched, so the database is returned unchanged. -/
def run_callytics_pipeline (w : World) (audio_path : String)
    (metadata : Jdict) (db : DB) : Except PipelineError Nat × DB :=
  match call_callytics w audio_path metadata with
  | .error e => (.error (.clientError e), db)
  | .ok result => persist audio_path metadata result db

/-- `getattr(settings, "HOP_LENGTH", 512)` (models.py): the process-wide
hop length, defaulting to 512 when the setting is absent. -/
def hopLength (setting : Option Nat) : Nat :=
  setting.getD 512

/-- `File.duration_seconds` (models.py lines 97-105):
`duration * hop_length / rate`, derived on read. -/
def FileRow.duration_seconds (f : FileRow) (setting : Option Nat) : ℚ :=
  (f.duration : ℚ) * (hopLength setting : ℚ) / (f.rate : ℚ)

/-- `File.silence_seconds` (models.py lines 107-112):
`silence * hop_length / rate`, derived on read. -/
def FileRow.silence_seconds (f : FileRow) (setting : Option Nat) : ℚ :=
  (f.silence : ℚ) * (hopLength setting : ℚ) / (f.rate : ℚ)

/-- `Utterance.duration_seconds` (models.py lines 141-148):
`(end_time - start_time) * hop_length / file.rate`, derived on read; `f`
is the row's own `File` (`self.file`). -/
def UtteranceRow.duration_seconds (u : UtteranceRow) (f : FileRow)
    (setting : Option Nat) : ℚ :=
  ((u.end_time - u.start_time : ℤ) : ℚ) * (hopLength setting : ℚ) / (f.rate : ℚ)

/-- `true` exactly on `Except.ok`. -/
def exceptOk : Except ε α → Bool
  | .ok _ => true
  | .error _ => false

/-- A row of the consultlytics `Session` table (consultlytics/models.py):
`session_id` is the externally supplied string primary key. -/
structure SessionRow where
  session_id : String
  speech_count : Int
  consulting_text : String
  asr_segments : JValue

/-- A row of the `EmotionScore` table (consultlytics/models.py lines
57-80): per-(session, actor) star-rating distribution.  The session
foreign key is the referenced `Session.session_id`. -/
structure EmotionScoreRow where
  session : String
  actor : String
  star1 : ℚ
  star2 : ℚ
  star3 : ℚ
  star4 : ℚ
  star5 : ℚ
  avg_score : ℚ
  label : String

/-- A row of the `Category` table (consultlytics/models.py lines 83-103):
the session foreign key is declared `OneToOneField`, hence unique. -/
structure CategoryRow where
  session : String
  mid_category : String
  content_category : String
  mid_category_id : Int
  result_label : String
  label_id : Int

/-- A row of the `ScriptMetric` table (consultlytics/models.py lines
106-134): the session foreign key is declared `OneToOneField`. -/
structure ScriptMetricRow where
  session : String
  script_phrase_ratio : ℚ
  honorific_ratio : ℚ
  positive_word_ratio : ℚ
  euphonious_word_ratio : ℚ
  confirmation_ratio : ℚ
  empathy_ratio : ℚ
  apology_ratio : ℚ
  request_ratio : ℚ
  alternative_count : Int
  conflict_flag : Bool
  manual_compliance_ratio : ℚ

/-- A row of the `ResultClassification` table (consultlytics/models.py
lines 137-146): the session foreign key is declared `OneToOneField`. -/
structure ResultClassificationRow where
  session : String
  label : String

/-- The Family-B (consultlytics) database tables. -/
structure ConsultDB where
  sessions : List SessionRow
  emotion_scores : List EmotionScoreRow
  categories : List CategoryRow
  script_metrics : List ScriptMetricRow
  results : List ResultClassificationRow

/-- Errors the storage backend raises when a declared constraint is
violated at insert time. -/
inductive DBError where
  | uniqueViolation
deriving DecidableEq

/-- Insert into `EmotionScore`, enforcing the declared
`unique_together = ("session", "actor")` constraint
(consultlytics/models.py lines 76-77): a second row for an already-used
(session, actor) pair is rejected. -/
def insertEmotionScore (db : ConsultDB) (r : EmotionScoreRow) :
    Except DBError ConsultDB :=
  if db.emotion_scores.any (fun r0 => r0.session == r.session && r0.actor == r.actor)
  then .error .uniqueViolation
  else .ok { db with emotion_scores := db.emotion_scores ++ [r] }

/-- Insert into `Category`, enforcing the uniqueness the `OneToOneField`
on `session` declares (consultlytics/models.py line 93). -/
def insertCategory (db : ConsultDB) (r : CategoryRow) :
    Except DBError ConsultDB :=
  if db.categories.any (fun r0 => r0.session == r.session)
  then .error .uniqueViolation
  else .ok { db with categories := db.categories ++ [r] }

/-- Insert into `ScriptMetric`, enforcing the uniqueness the
`OneToOneField` on `session` declares (consultlytics/models.py line 121). -/
def insertScriptMetric (db : ConsultDB) (r : ScriptMetricRow) :
    Except DBError ConsultDB :=
  if db.script_metrics.any (fun r0 => r0.session == r.session)
  then .error .uniqueViolation
  else .ok { db with script_metrics := db.script_metrics ++ [r] }

/-- Insert into `ResultClassification`, enforcing the uniqueness the
`OneToOneField` on `session` declares (consultlytics/models.py line 142). -/
def insertResultClassification (db : ConsultDB) (r : ResultClassificationRow) :
    Except DBError ConsultDB :=
  if db.results.any (fun r0 => r0.session == r.session)
  then .error .uniqueViolation
  else .ok { db with results := db.results ++ [r] }

/-- The fields `FileUploadSerializer` declares (serializers.py lines
21-25): the upload boundary accepts exactly these and nothing else. -/
def fileUploadSerializerFields : List String :=
  ["audio", "user_id", "gender", "age"]

/-- `validate_gender` (serializers.py lines 27-30): lowercase the value
and accept only male, female or other. -/
def validate_gender (value : String) : Except String String :=
  if value.toLower = "male" ∨ value.toLower = "female" ∨ value.toLower = "other"
  then .ok value.toLower
  else .error "Gender must be male, female, or other."

/-- The metadata dict `FileUploadView.post` builds and hands to
`run_callytics_pipeline.delay` (views.py lines 47-51): exactly the keys
`user_id`, `gender` and `age`. -/
def buildTaskMetadata (user_id : Int) (gender : String) (age : Int) : Jdict :=
  [("user_id", .jint user_id), ("gender", .jstr gender), ("age", .jint age)]

/-- A sample successful analysis response, matching the end-to-end
scenario of the spec. -/
def sampleUtt : JValue :=
  .jobj [("speaker", .jstr "agent"), ("sequence", .jint 1),
         ("start_time", .jint 0), ("end_time", .jint 160),
         ("content", .jstr "hello"), ("sentiment", .jstr "neutral"),
         ("profane", .jbool false)]

/-- A sample result document with all required `File` fields, a topic and
one utterance. -/
def sampleResult : Jdict :=
  [("topic", .jstr "X"),
   ("name", .jstr "call1"), ("extension", .jstr ".wav"),
   ("rate", .jint 16000), ("bit_depth", .jint 16), ("channels", .jint 1),
   ("duration", .jint 48000), ("min_freq", .jint 0), ("max_freq", .jint 8000),
   ("rms_loud", .jint 3), ("zero_cross", .jint 5), ("spec_cent", .jint 6),
   ("spec_bw", .jint 7), ("spec_flat", .jint 8), ("rolloff", .jint 9),
   ("chroma_stft", .jarr []), ("spec_contr", .jarr []),
   ("tonnetz", .jarr []), ("mfcc", .jarr []),
   ("conflict", .jbool false), ("silence", .jint 1600),
   ("utterances", .jarr [sampleUtt])]

/-- `sampleResult` with the required key `rate` removed. -/
def sampleResultNoRate : Jdict :=
  sampleResult.filter (fun p => p.fst != "rate")

/-- `sampleResult` with one utterance entry missing its `speaker` key. -/
def sampleResultBadUtt : Jdict :=
  [("topic", .jstr "X"),
   ("name", .jstr "call1"), ("extension", .jstr ".wav"),
   ("rate", .jint 16000), ("bit_depth", .jint 16), ("channels", .jint 1),
   ("duration", .jint 48000), ("min_freq", .jint 0), ("max_freq", .jint 8000),
   ("rms_loud", .jint 3), ("zero_cross", .jint 5), ("spec_cent", .jint 6),
   ("spec_bw", .jint 7), ("spec_flat", .jint 8), ("rolloff", .jint 9),
   ("chroma_stft", .jarr []), ("spec_contr", .jarr []),
   ("tonnetz", .jarr []), ("mfcc", .jarr []),
   ("conflict", .jbool false), ("silence", .jint 1600),
   ("utterances", .jarr [.jobj [("sequence", .jint 1)]])]

/-- Metadata carrying a present but empty `topic_name`. -/
def cexMeta : Jdict := [("topic_name", .jstr "")]

/-- A concrete `File` row, as created by `persist` from `sampleResult`. -/
def sampleFileRow : FileRow :=
  { id := 0, name := "call1", topic := 0, extension := ".wav", path := "p",
    rate := 16000, bit_depth := 16, channels := 1, duration := 48000,
    min_freq := 0, max_freq := 8000, rms_loud := 3, zero_cross := 5,
    spec_cent := 6, spec_bw := 7, spec_flat := 8, rolloff := 9,
    chroma_stft := .jarr [], spec_contr := .jarr [], tonnetz := .jarr [],
    mfcc := .jarr [], summary := "", conflict := false, silence := 1600 }

/-- A concrete utterance-field record with `end_time < start_time`. -/
def reversedUttFields : UttFields :=
  { speaker := "agent", sequence := 1, start_time := 160, end_time := 0,
    content := "hello", sentiment := "neutral", profane := false }

/-- An utterance entry whose `end_time` precedes its `start_time`. -/
def reversedUtt : JValue :=
  .jobj [("speaker", .jstr "agent"), ("sequence", .jint 1),
         ("start_time", .jint 160), ("end_time", .jint 0),
         ("content", .jstr "hello"), ("sentiment", .jstr "neutral"),
         ("profane", .jbool false)]

/-- A concrete `EmotionScore` row. -/
def sampleEmotion : EmotionScoreRow :=
  { session := "s1", actor := "agent", star1 := 0, star2 := 0, star3 := 0,
    star4 := 0, star5 := 1, avg_score := 5, label := "good" }

/-- A concrete `Category` row. -/
def sampleCategory : CategoryRow :=
  { session := "s1", mid_category := "m", content_category := "c",
    mid_category_id := 1, result_label := "r", label_id := 2 }

/-- A concrete `ScriptMetric` row. -/
def sampleScriptMetric : ScriptMetricRow :=
  { session := "s1", script_phrase_ratio := 0, honorific_ratio := 0,
    positive_word_ratio := 0, euphonious_word_ratio := 0,
    confirmation_ratio := 0, empathy_ratio := 0, apology_ratio := 0,
    request_ratio := 0, alternative_count := 0, conflict_flag := false,
    manual_compliance_ratio := 0 }

/-- A concrete `ResultClassification` row. -/
def sampleResultClass : ResultClassificationRow :=
  { session := "s1", label := "satisfied" }

/-- A consultlytics database already holding one row in each constrained
table, all for session `s1` (the emotion score for actor `agent`). -/
def sampleConsultDB : ConsultDB :=
  { sessions := [{ session_id := "s1", speech_count := 2,
                   consulting_text := "t", asr_segments := .jarr [] }],
    emotion_scores := [sampleEmotion],
    categories := [sampleCategory],
    script_metrics := [sampleScriptMetric],
    results := [sampleResultClass] }

theorem exbind_ok (a : α) (f : α → Except ε β) :
    (Except.ok a >>= f : Except ε β) = f a := rfl

theorem exbind_err (e : ε) (f : α → Except ε β) :
    (Except.error e >>= f : Except ε β) = .error e := rfl

theorem getStr_cases (d : Jdict) (k : String) :
    (∃ s, getStr d k = .ok s ∧ lookupKey d k = some (.jstr s)) ∨
    (getStr d k = .error (.keyError k) ∧ lookupKey d k = none) ∨
    (getStr d k = .error (.typeError k)) := by
  unfold getStr
  match h : lookupKey d k with
  | none => exact Or.inr (Or.inl ⟨rfl, rfl⟩)
  | some v => cases v <;> simp

theorem getInt_cases (d : Jdict) (k : String) :
    (∃ n, getInt d k = .ok n ∧ lookupKey d k = some (.jint n)) ∨
    (getInt d k = .error (.keyError k) ∧ lookupKey d k = none) ∨
    (getInt d k = .error (.typeError k)) := by
  unfold getInt
  match h : lookupKey d k with
  | none => exact Or.inr (Or.inl ⟨rfl, rfl⟩)
  | some v => cases v <;> simp

theorem getRat_cases (d : Jdict) (k : String) :
    (∃ q, getRat d k = .ok q ∧ (lookupKey d k).isSome = true) ∨
    (getRat d k = .error (.keyError k) ∧ lookupKey d k = none) ∨
    (getRat d k = .error (.typeError k)) := by
  unfold getRat
  match h : lookupKey d k with
  | none => exact Or.inr (Or.inl ⟨rfl, rfl⟩)
  | some v => cases v <;> simp

theorem getBool_cases (d : Jdict) (k : String) :
    (∃ b, getBool d k = .ok b ∧ lookupKey d k = some (.jbool b)) ∨
    (getBool d k = .error (.keyError k) ∧ lookupKey d k = none) ∨
    (getBool d k = .error (.typeError k)) := by
  unfold getBool
  match h : lookupKey d k with
  | none => exact Or.inr (Or.inl ⟨rfl, rfl⟩)
  | some v => cases v <;> simp

theorem getJson_cases (d : Jdict) (k : String) :
    (∃ v, getJson d k = .ok v ∧ (lookupKey d k).isSome = true) ∨
    (getJson d k = .error (.keyError k) ∧ lookupKey d k = none) := by
  unfold getJson
  match h : lookupKey d k with
  | none => exact Or.inr ⟨rfl, rfl⟩
  | some v => exact Or.inl ⟨v, rfl, by simp⟩

theorem getSummary_cases (d : Jdict) :
    (∃ s, getSummary d = .ok s) ∨
    (getSummary d = .error (.typeError "summary")) := by
  unfold getSummary
  match h : lookupKey d "summary" with
  | none => exact Or.inl ⟨"", rfl⟩
  | some v => cases v <;> simp

/-- Trichotomy for the File-field extraction: it succeeds with every
required key present, or raises a KeyError on a missing required key,
or rejects a present value of the wrong shape. -/
theorem extract_trichotomy (r : Jdict) :
    (exceptOk (extractFileFields r) = true ∧
      ∀ k, k ∈ requiredFileKeys → (lookupKey r k).isSome = true) ∨
    (∃ j, j ∈ requiredFileKeys ∧ lookupKey r j = none ∧
      extractFileFields r = .error (.keyError j)) ∨
    (∃ j, extractFileFields r = .error (.typeError j)) := by
  rw [extractFileFields]
  rcases getStr_cases r "name" with ⟨v1, h1, p1⟩ | ⟨h1, p1⟩ | h1
  rotate_left
  · exact Or.inr (Or.inl ⟨"name", by decide, p1, by rw [h1, exbind_err]⟩)
  · exact Or.inr (Or.inr ⟨"name", by rw [h1, exbind_err]⟩)
  rw [h1, exbind_ok]
  rcases getStr_cases r "extension" with ⟨v2, h2, p2⟩ | ⟨h2, p2⟩ | h2
  rotate_left
  · exact Or.inr (Or.inl ⟨"extension", by decide, p2, by rw [h2, exbind_err]⟩)
  · exact Or.inr (Or.inr ⟨"extension", by rw [h2, exbind_err]⟩)
  rw [h2, exbind_ok]
  rcases getInt_cases r "rate" with ⟨v3, h3, p3⟩ | ⟨h3, p3⟩ | h3
  rotate_left
  · exact Or.inr (Or.inl ⟨"rate", by decide, p3, by rw [h3, exbind_err]⟩)
  · exact Or.inr (Or.inr ⟨"rate", by rw [h3, exbind_err]⟩)
  rw [h3, exbind_ok]
  rcases getInt_cases r "bit_depth" with ⟨v4, h4, p4⟩ | ⟨h4, p4⟩ | h4
  rotate_left
  · exact Or.inr (Or.inl ⟨"bit_depth", by decide, p4, by rw [h4, exbind_err]⟩)
  · exact Or.inr (Or.inr ⟨"bit_depth", by rw [h4, exbind_err]⟩)
  rw [h4, exbind_ok]
  rcases getInt_cases r "channels" with ⟨v5, h5, p5⟩ | ⟨h5, p5⟩ | h5
  rotate_left
  · exact Or.inr (Or.inl ⟨"channels", by decide, p5, by rw [h5, exbind_err]⟩)
  · exact Or.inr (Or.inr ⟨"channels", by rw [h5, exbind_err]⟩)
  rw [h5, exbind_ok]
  rcases getInt_cases r "duration" with ⟨v6, h6, p6⟩ | ⟨h6, p6⟩ | h6
  rotate_left
  · exact Or.inr (Or.inl ⟨"duration", by decide, p6, by rw [h6, exbind_err]⟩)
  · exact Or.inr (Or.inr ⟨"duration", by rw [h6, exbind_err]⟩)
  rw [h6, exbind_ok]
  rcases getInt_cases r "min_freq" with ⟨v7, h7, p7⟩ | ⟨h7, p7⟩ | h7
  rotate_left
  · exact Or.inr (Or.inl ⟨"min_freq", by decide, p7, by rw [h7, exbind_err]⟩)
  · exact Or.inr (Or.inr ⟨"min_freq", by rw [h7, exbind_err]⟩)
  rw [h7, exbind_ok]
  rcases getInt_cases r "max_freq" with ⟨v8, h8, p8⟩ | ⟨h8, p8⟩ | h8
  rotate_left
  · exact Or.inr (Or.inl ⟨"max_freq", by decide, p8, by rw [h8, exbind_err]⟩)
  · exact Or.inr (Or.inr ⟨"max_freq", by rw [h8, exbind_err]⟩)
  rw [h8, exbind_ok]
  rcases getRat_cases r "rms_loud" with ⟨v9, h9, p9⟩ | ⟨h9, p9⟩ | h9
  rotate_left
  · exact Or.inr (Or.inl ⟨"rms_loud", by decide, p9, by rw [h9, exbind_err]⟩)
  · exact Or.inr (Or.inr ⟨"rms_loud", by rw [h9, exbind_err]⟩)
  rw [h9, exbind_ok]
  rcases getInt_cases r "zero_cross" with ⟨v10, h10, p10⟩ | ⟨h10, p10⟩ | h10
  rotate_left
  · exact Or.inr (Or.inl ⟨"zero_cross", by decide, p10, by rw [h10, exbind_err]⟩)
  · exact Or.inr (Or.inr ⟨"zero_cross", by rw [h10, exbind_err]⟩)
  rw [h10, exbind_ok]
  rcases getInt_cases r "spec_cent" with ⟨v11, h11, p11⟩ | ⟨h11, p11⟩ | h11
  rotate_left
  · exact Or.inr (Or.inl ⟨"spec_cent", by decide, p11, by rw [h11, exbind_err]⟩)
  · exact Or.inr (Or.inr ⟨"spec_cent", by rw [h11, exbind_err]⟩)
  rw [h11, exbind_ok]
  rcases getInt_cases r "spec_bw" with ⟨v12, h12, p12⟩ | ⟨h12, p12⟩ | h12
  rotate_left
  · exact Or.inr (Or.inl ⟨"spec_bw", by decide, p12, by rw [h12, exbind_err]⟩)
  · exact Or.inr (Or.inr ⟨"spec_bw", by rw [h12, exbind_err]⟩)
  rw [h12, exbind_ok]
  rcases getInt_cases r "spec_flat" with ⟨v13, h13, p13⟩ | ⟨h13, p13⟩ | h13
  rotate_left
  · exact Or.inr (Or.inl ⟨"spec_flat", by decide, p13, by rw [h13, exbind_err]⟩)
  · exact Or.inr (Or.inr ⟨"spec_flat", by rw [h13, exbind_err]⟩)
  rw [h13, exbind_ok]
  rcases getInt_cases r "rolloff" with ⟨v14, h14, p14⟩ | ⟨h14, p14⟩ | h14
  rotate_left
  · exact Or.inr (Or.inl ⟨"rolloff", by decide, p14, by rw [h14, exbind_err]⟩)
  · exact Or.inr (Or.inr ⟨"rolloff", by rw [h14, exbind_err]⟩)
  rw [h14, exbind_ok]
  rcases getJson_cases r "chroma_stft" with ⟨v15, h15, p15⟩ | ⟨h15, p15⟩
  rotate_left
  · exact Or.inr (Or.inl ⟨"chroma_stft", by decide, p15, by rw [h15, exbind_err]⟩)
  rw [h15, exbind_ok]
  rcases getJson_cases r "spec_contr" with ⟨v16, h16, p16⟩ | ⟨h16, p16⟩
  rotate_left
  · exact Or.inr (Or.inl ⟨"spec_contr", by decide, p16, by rw [h16, exbind_err]⟩)
  rw [h16, exbind_ok]
  rcases getJson_cases r "tonnetz" with ⟨v17, h17, p17⟩ | ⟨h17, p17⟩
  rotate_left
  · exact Or.inr (Or.inl ⟨"tonnetz", by decide, p17, by rw [h17, exbind_err]⟩)
  rw [h17, exbind_ok]
  rcases getJson_cases r "mfcc" with ⟨v18, h18, p18⟩ | ⟨h18, p18⟩
  rotate_left
  · exact Or.inr (Or.inl ⟨"mfcc", by decide, p18, by rw [h18, exbind_err]⟩)
  rw [h18, exbind_ok]
  rcases getSummary_cases r with ⟨v19, h19⟩ | h19
  rotate_left
  · exact Or.inr (Or.inr ⟨"summary", by rw [h19, exbind_err]⟩)
  rw [h19, exbind_ok]
  rcases getBool_cases r "conflict" with ⟨v20, h20, p20⟩ | ⟨h20, p20⟩ | h20
  rotate_left
  · exact Or.inr (Or.inl ⟨"conflict", by decide, p20, by rw [h20, exbind_err]⟩)
  · exact Or.inr (Or.inr ⟨"conflict", by rw [h20, exbind_err]⟩)
  rw [h20, exbind_ok]
  rcases getInt_cases r "silence" with ⟨v21, h21, p21⟩ | ⟨h21, p21⟩ | h21
  rotate_left
  · exact Or.inr (Or.inl ⟨"silence", by decide, p21, by rw [h21, exbind_err]⟩)
  · exact Or.inr (Or.inr ⟨"silence", by rw [h21, exbind_err]⟩)
  rw [h21, exbind_ok]
  left
  refine ⟨rfl, ?_⟩
  intro k hk
  fin_cases hk <;>
    simp [p1, p2, p3, p4, p5, p6, p7, p8, p9, p10, p11, p12, p13, p14,
          p15, p16, p17, p18, p20, p21]

theorem mkUtterance_ok_file (fid : Nat) (u : JValue) (uid : Nat)
    (row : UtteranceRow) (h : mkUtterance fid u uid = .ok row) :
    row.file = fid ∧ row.id = uid := by
  unfold mkUtterance at h
  match hx : extractUttFields u with
  | .error e => rw [hx] at h; exact absurd h (by simp [Except.map])
  | .ok ff =>
      rw [hx] at h
      simp [Except.map] at h
      subst h
      exact ⟨rfl, rfl⟩
/-- What the utterance-insert loop does to the database: it appends some
prefix of the built rows (all of one run, when it succeeds), touching no
other table; on success the i-th row is exactly the row built from the
i-th entry. -/
theorem insertUtterances_spec (fid : Nat) (us : List JValue) (db : DB) :
    ∃ rows,
      (insertUtterances fid us db).2.utterances = db.utterances ++ rows ∧
      (insertUtterances fid us db).2.files = db.files ∧
      (insertUtterances fid us db).2.topics = db.topics ∧
      (insertUtterances fid us db).2.nextFileId = db.nextFileId ∧
      (insertUtterances fid us db).2.nextTopicId = db.nextTopicId ∧
      (insertUtterances fid us db).2.nextUttId = db.nextUttId + rows.length ∧
      rows.length ≤ us.length ∧
      (∀ u ∈ rows, u.file = fid) ∧
      (exceptOk (insertUtterances fid us db).1 = true →
        rows.length = us.length ∧
        ∀ i (hi : i < rows.length) (hj : i < us.length),
          mkUtterance fid (us.get ⟨i, hj⟩) ((rows.get ⟨i, hi⟩).id) =
            .ok (rows.get ⟨i, hi⟩)) := by
  induction us generalizing db with
  | nil =>
      refine ⟨[], by simp [insertUtterances], by simp [insertUtterances],
        by simp [insertUtterances], by simp [insertUtterances],
        by simp [insertUtterances], by simp [insertUtterances],
        by simp, by simp, ?_⟩
      intro _
      exact ⟨rfl, fun i hi _ => absurd hi (by simp)⟩
  | cons u rest ih =>
      match hmk : mkUtterance fid u db.nextUttId with
      | .error e =>
          refine ⟨[], by simp [insertUtterances, hmk],
            by simp [insertUtterances, hmk], by simp [insertUtterances, hmk],
            by simp [insertUtterances, hmk], by simp [insertUtterances, hmk],
            by simp [insertUtterances, hmk], by simp, by simp, ?_⟩
          intro hok
          exact absurd hok (by simp [insertUtterances, hmk, exceptOk])
      | .ok row =>
          obtain ⟨hfile, hid⟩ := mkUtterance_ok_file fid u db.nextUttId row hmk
          obtain ⟨rows, hutt, hfiles, htop, hnf, hnt, hnu, hlen, hall, hok⟩ :=
            ih { db with utterances := db.utterances ++ [row],
                         nextUttId := db.nextUttId + 1 }
          refine ⟨row :: rows, ?_, ?_, ?_, ?_, ?_, ?_, ?_, ?_, ?_⟩
          · simp only [insertUtterances, hmk]
            rw [hutt]; simp
          · simp only [insertUtterances, hmk]; exact hfiles
          · simp only [insertUtterances, hmk]; exact htop
          · simp only [insertUtterances, hmk]; exact hnf
          · simp only [insertUtterances, hmk]; exact hnt
          · simp only [insertUtterances, hmk]
            rw [hnu]; simp; omega
          · simpa using Nat.succ_le_succ hlen
          · intro x hx
            rcases List.mem_cons.mp hx with rfl | hx2
            · exact hfile
            · exact hall _ hx2
          · intro hsucc
            have hsucc2 : exceptOk (insertUtterances fid rest
                { db with utterances := db.utterances ++ [row],
                          nextUttId := db.nextUttId + 1 }).1 = true := by
              revert hsucc
              simp only [insertUtterances, hmk]
              exact id
            obtain ⟨hlen2, hidx⟩ := hok hsucc2
            refine ⟨by simp [hlen2], ?_⟩
            intro i hi hj
            match i with
            | 0 => simpa [hid] using hmk
            | Nat.succ n =>
                have hi2 : n < rows.length := by simpa using hi
                have hj2 : n < rest.length := by simpa using hj
                simpa using hidx n hi2 hj2

theorem getOrCreateTopic_preserve (name : String) (db : DB) :
    (getOrCreateTopic name db).2.files = db.files ∧
    (getOrCreateTopic name db).2.utterances = db.utterances ∧
    (getOrCreateTopic name db).2.nextFileId = db.nextFileId ∧
    (getOrCreateTopic name db).2.nextUttId = db.nextUttId := by
  unfold getOrCreateTopic
  cases h : db.topics.find? (fun t => t.name == name) <;> simp [h]
/-- What the utterance phase does to the database: it only appends
utterance rows, all referencing the given file id; on success it returns
the file id and appends exactly one row per entry, in order. -/
theorem persistUtterances_spec (fid : Nat) (r : Jdict) (db2 : DB) :
    ∃ rows,
      (persistUtterances fid r db2).2.utterances = db2.utterances ++ rows ∧
      (persistUtterances fid r db2).2.files = db2.files ∧
      (persistUtterances fid r db2).2.topics = db2.topics ∧
      (persistUtterances fid r db2).2.nextFileId = db2.nextFileId ∧
      (persistUtterances fid r db2).2.nextTopicId = db2.nextTopicId ∧
      rows.length ≤ (utterancesOf r).length ∧
      (∀ u ∈ rows, u.file = fid) ∧
      ((∃ e, (persistUtterances fid r db2).1 = .error e) ∨
        ((persistUtterances fid r db2).1 = .ok fid ∧
          rows.length = (utterancesOf r).length ∧
          (∀ i (hi : i < rows.length) (hj : i < (utterancesOf r).length),
            mkUtterance fid ((utterancesOf r).get ⟨i, hj⟩)
                ((rows.get ⟨i, hi⟩).id) = .ok (rows.get ⟨i, hi⟩)) ∧
          (lookupKey r "utterances" = none → rows = []))) := by
  match hlu : lookupKey r "utterances" with
  | none =>
      refine ⟨[], ?_⟩
      simp [persistUtterances, hlu, utterancesOf]
  | some .jnull =>
      refine ⟨[], ?_⟩
      simp [persistUtterances, hlu, utterancesOf]
  | some (.jbool b) =>
      refine ⟨[], ?_⟩
      simp [persistUtterances, hlu, utterancesOf]
  | some (.jint n) =>
      refine ⟨[], ?_⟩
      simp [persistUtterances, hlu, utterancesOf]
  | some (.jnum q) =>
      refine ⟨[], ?_⟩
      simp [persistUtterances, hlu, utterancesOf]
  | some (.jstr s) =>
      refine ⟨[], ?_⟩
      simp [persistUtterances, hlu, utterancesOf]
  | some (.jobj fs) =>
      refine ⟨[], ?_⟩
      simp [persistUtterances, hlu, utterancesOf]
  | some (.jarr vs) =>
      have hV : utterancesOf r = vs := by simp [utterancesOf, hlu]
      obtain ⟨rows, hutt, hfiles, htop, hnf, hnt, hnu, hlen, hall, hok⟩ :=
        insertUtterances_spec fid vs db2
      refine ⟨rows, ?_⟩
      match hins : insertUtterances fid vs db2 with
      | (.ok u, db3) =>
          rw [hins] at hutt hfiles htop hnf hnt hok
          have hok2 := hok (by simp [exceptOk])
          refine ⟨?_, ?_, ?_, ?_, ?_, ?_, hall, Or.inr ⟨?_, ?_, ?_, ?_⟩⟩
          · simp only [persistUtterances, hlu, hins]; exact hutt
          · simp only [persistUtterances, hlu, hins]; exact hfiles
          · simp only [persistUtterances, hlu, hins]; exact htop
          · simp only [persistUtterances, hlu, hins]; exact hnf
          · simp only [persistUtterances, hlu, hins]; exact hnt
          · rw [hV]; exact hlen
          · simp [persistUtterances, hlu, hins]
          · rw [hV]; exact hok2.1
          · rw [hV]; exact hok2.2
          · intro hnone; cases hnone
      | (.error e, db3) =>
          rw [hins] at hutt hfiles htop hnf hnt
          refine ⟨?_, ?_, ?_, ?_, ?_, ?_, hall, Or.inl ⟨e, ?_⟩⟩
          · simp only [persistUtterances, hlu, hins]; exact hutt
          · simp only [persistUtterances, hlu, hins]; exact hfiles
          · simp only [persistUtterances, hlu, hins]; exact htop
          · simp only [persistUtterances, hlu, hins]; exact hnf
          · simp only [persistUtterances, hlu, hins]; exact hnt
          · rw [hV]; exact hlen
          · simp [persistUtterances, hlu, hins]

theorem persist_ok (a : String) (m r : Jdict) (db : DB) (fid : Nat)
    (db2 : DB) (h : persist a m r db = (.ok fid, db2)) :
    fid = db.nextFileId ∧
    db2.nextFileId = db.nextFileId + 1 ∧
    (∃ tid ff,
      extractFileFields r = .ok ff ∧
      db2.files = db.files ++ [buildFileRow fid tid a ff]) ∧
    (∃ rows,
      db2.utterances = db.utterances ++ rows ∧
      rows.length = (utterancesOf r).length ∧
      (∀ u ∈ rows, u.file = fid) ∧
      (∀ i (hi : i < rows.length) (hj : i < (utterancesOf r).length),
        mkUtterance fid ((utterancesOf r).get ⟨i, hj⟩)
            ((rows.get ⟨i, hi⟩).id) = .ok (rows.get ⟨i, hi⟩)) ∧
      (lookupKey r "utterances" = none → rows = [])) := by
  unfold persist at h
  match htn : (resolveTopicName m r).asString with
  | none => rw [htn] at h; exact absurd h (by simp)
  | some tname =>
      rw [htn] at h
      simp only at h
      rcases hg : getOrCreateTopic tname db with ⟨tid, db1⟩
      rw [hg] at h
      simp only at h
      obtain ⟨hPf, hPu, hPnf, hPnu⟩ := getOrCreateTopic_preserve tname db
      rw [hg] at hPf hPu hPnf hPnu
      simp only at hPf hPu hPnf hPnu
      match hex : extractFileFields r with
      | .error e => rw [hex] at h; exact absurd h (by simp)
      | .ok ff =>
          rw [hex] at h
          simp only at h
          obtain ⟨rows, hutt, hfiles, htop, hnf, hnt, hlen, hall, hres⟩ :=
            persistUtterances_spec db1.nextFileId r
              { db1 with
                files := db1.files ++ [buildFileRow db1.nextFileId tid a ff],
                nextFileId := db1.nextFileId + 1 }
          rw [h] at hutt hfiles htop hnf hnt hres
          simp only at hutt hfiles htop hnf hnt
          rcases hres with ⟨e, he⟩ | ⟨hfid, hlen2, hidx, hnone⟩
          · exact absurd he (by simp)
          · simp only at hfid
            have hfid2 : fid = db1.nextFileId := Except.ok.inj hfid
            refine ⟨?_, ?_, ?_, ?_⟩
            · rw [hfid2, hPnf]
            · rw [hnf, hPnf]
            · exact ⟨tid, ff, rfl, by rw [hfiles, hPf, hfid2, hPnf]⟩
            · refine ⟨rows, ?_, hlen2, ?_, ?_, hnone⟩
              · rw [hutt, hPu]
              · intro u hu; rw [hfid2]; exact hall u hu
              · intro i hi hj; rw [hfid2]; exact hidx i hi hj
/-- When the `File`-field extraction raises, `persist` reports that error
and writes to neither the `File` nor the `Utterance` table (the topic
`get_or_create` has already committed, as in the source). -/
theorem persist_extract_err (a : String) (m r : Jdict) (db : DB)
    (tname : String) (e2 : PipelineError)
    (htn : (resolveTopicName m r).asString = some tname)
    (h2 : extractFileFields r = .error e2) :
    (persist a m r db).1 = .error e2 ∧
    (persist a m r db).2.files = db.files ∧
    (persist a m r db).2.utterances = db.utterances := by
  obtain ⟨hPf, hPu, hPnf, hPnu⟩ := getOrCreateTopic_preserve tname db
  unfold persist
  rw [htn]
  simp only
  rcases hg : getOrCreateTopic tname db with ⟨tid, db1⟩
  rw [hg] at hPf hPu hPnf hPnu
  simp only at hPf hPu hPnf hPnu
  rw [h2]
  simp only
  refine ⟨?_, hPf, hPu⟩
  trivial
/-- When `persist` fails although the topic resolved and every `File`
field extracted, the failure happened in the utterance phase: the `File`
row is still visible afterwards, together with the prefix of utterance
rows written before the failure. -/
theorem persist_err_after_file (a : String) (m r : Jdict) (db : DB)
    (e : PipelineError) (db2 : DB)
    (h : persist a m r db = (.error e, db2))
    (htn : ((resolveTopicName m r).asString).isSome = true)
    (hex2 : exceptOk (extractFileFields r) = true) :
    ∃ frow rows,
      db2.files = db.files ++ [frow] ∧
      frow.id = db.nextFileId ∧
      db2.utterances = db.utterances ++ rows ∧
      rows.length ≤ (utterancesOf r).length ∧
      ∀ u ∈ rows, u.file = frow.id := by
  match htn2 : (resolveTopicName m r).asString with
  | none => rw [htn2] at htn; exact absurd htn (by simp)
  | some tname =>
      unfold persist at h
      rw [htn2] at h
      simp only at h
      rcases hg : getOrCreateTopic tname db with ⟨tid, db1⟩
      rw [hg] at h
      simp only at h
      obtain ⟨hPf, hPu, hPnf, hPnu⟩ := getOrCreateTopic_preserve tname db
      rw [hg] at hPf hPu hPnf hPnu
      simp only at hPf hPu hPnf hPnu
      match hex : extractFileFields r with
      | .error e3 => rw [hex] at hex2; exact absurd hex2 (by simp [exceptOk])
      | .ok ff =>
          rw [hex] at h
          simp only at h
          obtain ⟨rows, hutt, hfiles, htop, hnf, hnt, hlen, hall, hres⟩ :=
            persistUtterances_spec db1.nextFileId r
              { db1 with
                files := db1.files ++ [buildFileRow db1.nextFileId tid a ff],
                nextFileId := db1.nextFileId + 1 }
          rw [h] at hutt hfiles htop hnf hnt hres
          simp only at hutt hfiles htop hnf hnt
          rcases hres with ⟨e4, he⟩ | ⟨hfid, hrest⟩
          · refine ⟨buildFileRow db1.nextFileId tid a ff, rows, ?_, ?_, ?_, hlen, ?_⟩
            · rw [hfiles, hPf]
            · simp [buildFileRow, hPnf]
            · rw [hutt, hPu]
            · intro u hu
              have := hall u hu
              rw [this]
              simp [buildFileRow]
          · simp only at hfid
            exact absurd hfid (by simp)

theorem mkUtterance_isOk (fid : Nat) (u : JValue) (uid : Nat) :
    exceptOk (mkUtterance fid u uid) = exceptOk (extractUttFields u) := by
  unfold mkUtterance
  cases h : extractUttFields u <;> simp [Except.map, exceptOk]
/-- The utterance loop succeeds exactly when every entry extracts. -/
theorem insertUtterances_isOk (fid : Nat) (us : List JValue) (db : DB) :
    exceptOk (insertUtterances fid us db).1 =
      us.all (fun v => exceptOk (extractUttFields v)) := by
  induction us generalizing db with
  | nil => simp [insertUtterances, exceptOk]
  | cons u rest ih =>
      match hmk : mkUtterance fid u db.nextUttId with
      | .error e =>
          have h2 : exceptOk (extractUttFields u) = false := by
            rw [← mkUtterance_isOk fid u db.nextUttId, hmk]; rfl
          simp only [insertUtterances, hmk]
          rw [List.all_cons, h2]
          simp [exceptOk]
      | .ok row =>
          have h2 : exceptOk (extractUttFields u) = true := by
            rw [← mkUtterance_isOk fid u db.nextUttId, hmk]; rfl
          simp only [insertUtterances, hmk]
          rw [ih]
          simp [List.all_cons, h2]
/-- Success of the utterance phase is independent of the database state
and of the file id. -/
theorem persistUtterances_isOk_congr (fidA fidB : Nat) (r : Jdict)
    (dbA dbB : DB) :
    exceptOk (persistUtterances fidA r dbA).1 =
      exceptOk (persistUtterances fidB r dbB).1 := by
  unfold persistUtterances
  match hlu : lookupKey r "utterances" with
  | none => rfl
  | some .jnull => rfl
  | some (.jbool b) => rfl
  | some (.jint n) => rfl
  | some (.jnum q) => rfl
  | some (.jstr s) => rfl
  | some (.jobj fs) => rfl
  | some (.jarr vs) =>
      simp only
      match hA : insertUtterances fidA vs dbA, hB : insertUtterances fidB vs dbB with
      | (.ok uA, dbA2), (.ok uB, dbB2) => rfl
      | (.ok uA, dbA2), (.error eB, dbB2) =>
          have h1 := insertUtterances_isOk fidA vs dbA
          have h2 := insertUtterances_isOk fidB vs dbB
          rw [hA] at h1; rw [hB] at h2
          rw [← h2] at h1
          exact absurd h1 (by simp [exceptOk])
      | (.error eA, dbA2), (.ok uB, dbB2) =>
          have h1 := insertUtterances_isOk fidA vs dbA
          have h2 := insertUtterances_isOk fidB vs dbB
          rw [hA] at h1; rw [hB] at h2
          rw [← h2] at h1
          exact absurd h1 (by simp [exceptOk])
      | (.error eA, dbA2), (.error eB, dbB2) => rfl
/-- Whether `persist` succeeds depends only on its inputs, not on the
database state: the same call replayed on any database succeeds again. -/
theorem persist_isOk_congr (a : String) (m r : Jdict) (dbA dbB : DB) :
    exceptOk (persist a m r dbA).1 = exceptOk (persist a m r dbB).1 := by
  unfold persist
  match htn : (resolveTopicName m r).asString with
  | none => rfl
  | some tname =>
      simp only
      rcases hgA : getOrCreateTopic tname dbA with ⟨tidA, dbA1⟩
      rcases hgB : getOrCreateTopic tname dbB with ⟨tidB, dbB1⟩
      match hex : extractFileFields r with
      | .error e => rfl
      | .ok ff =>
          simp only
          exact persistUtterances_isOk_congr dbA1.nextFileId dbB1.nextFileId r _ _

theorem exceptOk_eq_ok {ε α : Type} {e : Except ε α} (h : exceptOk e = true) :
    ∃ a, e = .ok a := by
  match e with
  | .ok a => exact ⟨a, rfl⟩
  | .error _ => exact absurd h (by simp [exceptOk])
/-- A successfully extracted utterance keeps the supplied start and end
frame numbers unchanged. -/
theorem extractUttFields_ok_times (d : Jdict) (ff : UttFields)
    (h : extractUttFields (.jobj d) = .ok ff) :
    lookupKey d "start_time" = some (.jint ff.start_time) ∧
    lookupKey d "end_time" = some (.jint ff.end_time) := by
  unfold extractUttFields at h
  simp only at h
  rcases getStr_cases d "speaker" with ⟨v1, h1, p1⟩ | ⟨h1, p1⟩ | h1
  rotate_left
  · rw [h1, exbind_err] at h; exact absurd h (by simp)
  · rw [h1, exbind_err] at h; exact absurd h (by simp)
  rw [h1, exbind_ok] at h
  rcases getInt_cases d "sequence" with ⟨v2, h2, p2⟩ | ⟨h2, p2⟩ | h2
  rotate_left
  · rw [h2, exbind_err] at h; exact absurd h (by simp)
  · rw [h2, exbind_err] at h; exact absurd h (by simp)
  rw [h2, exbind_ok] at h
  rcases getInt_cases d "start_time" with ⟨v3, h3, p3⟩ | ⟨h3, p3⟩ | h3
  rotate_left
  · rw [h3, exbind_err] at h; exact absurd h (by simp)
  · rw [h3, exbind_err] at h; exact absurd h (by simp)
  rw [h3, exbind_ok] at h
  rcases getInt_cases d "end_time" with ⟨v4, h4, p4⟩ | ⟨h4, p4⟩ | h4
  rotate_left
  · rw [h4, exbind_err] at h; exact absurd h (by simp)
  · rw [h4, exbind_err] at h; exact absurd h (by simp)
  rw [h4, exbind_ok] at h
  rcases getStr_cases d "content" with ⟨v5, h5, p5⟩ | ⟨h5, p5⟩ | h5
  rotate_left
  · rw [h5, exbind_err] at h; exact absurd h (by simp)
  · rw [h5, exbind_err] at h; exact absurd h (by simp)
  rw [h5, exbind_ok] at h
  rcases getStr_cases d "sentiment" with ⟨v6, h6, p6⟩ | ⟨h6, p6⟩ | h6
  rotate_left
  · rw [h6, exbind_err] at h; exact absurd h (by simp)
  · rw [h6, exbind_err] at h; exact absurd h (by simp)
  rw [h6, exbind_ok] at h
  rcases getBool_cases d "profane" with ⟨v7, h7, p7⟩ | ⟨h7, p7⟩ | h7
  rotate_left
  · rw [h7, exbind_err] at h; exact absurd h (by simp)
  · rw [h7, exbind_err] at h; exact absurd h (by simp)
  rw [h7, exbind_ok] at h
  have h9 : ({ speaker := v1, sequence := v2, start_time := v3,
               end_time := v4, content := v5, sentiment := v6,
               profane := v7 } : UttFields) = ff := by
    exact Except.ok.inj h
  subst h9
  exact ⟨p3, p4⟩

/-- C4: for every `File` row, `duration_seconds` equals
`duration * hop_length / rate` and `silence_seconds` equals
`silence * hop_length / rate`; for every `Utterance` row,
`duration_seconds` equals `(end_time - start_time) * hop_length / rate` of
the row's own file; `hop_length` is the process-wide setting with default
512; the values are computed on read (they are functions of the stored
row, not stored columns). -/
theorem C4_derived_seconds (f : FileRow) (u : UtteranceRow)
    (setting : Option Nat) :
    f.duration_seconds setting =
      (f.duration : ℚ) * (hopLength setting : ℚ) / (f.rate : ℚ) ∧
    f.silence_seconds setting =
      (f.silence : ℚ) * (hopLength setting : ℚ) / (f.rate : ℚ) ∧
    u.duration_seconds f setting =
      ((u.end_time - u.start_time : ℤ) : ℚ) * (hopLength setting : ℚ) /
        (f.rate : ℚ) ∧
    hopLength none = 512 ∧ (∀ n, hopLength (some n) = n) :=
  ⟨rfl, rfl, rfl, rfl, fun _ => rfl⟩

/-- C5: whenever the external call fails (unreadable file, no response,
non-success status, unparseable body), `run_callytics_pipeline` propagates
the failure and the database is returned untouched: `persist` is never
reached and no `Topic`, `File` or `Utterance` row is written. -/
theorem C5_client_failure_no_write (w : World) (a : String) (m : Jdict)
    (db : DB) :
    (w.fileReadable = false → call_callytics w a m = .error .ioFailure) ∧
    (w.fileReadable = true → w.net = .noResponse →
      call_callytics w a m = .error .networkFailure) ∧
    (∀ resp, w.fileReadable = true → w.net = .response resp →
      400 ≤ resp.status →
      call_callytics w a m = .error (.remoteError resp.status)) ∧
    (∀ resp, w.fileReadable = true → w.net = .response resp →
      resp.status < 400 → resp.body = none →
      call_callytics w a m = .error .parseFailure) ∧
    (∀ e, call_callytics w a m = .error e →
      run_callytics_pipeline w a m db = (.error (.clientError e), db)) := by
  refine ⟨?_, ?_, ?_, ?_, ?_⟩
  · intro h; simp [call_callytics, h]
  · intro hr hn; simp [call_callytics, hr, hn]
  · intro resp hr hn hs
    simp [call_callytics, hr, hn, hs]
  · intro resp hr hn hs hb
    simp [call_callytics, hr, hn, hb, not_le.mpr hs]
  · intro e he; simp [run_callytics_pipeline, he]

/-- C5 witness: a world where the request gets no response makes the
client signal a network failure and the pipeline return the database
unchanged. -/
theorem C5_witness :
    call_callytics { fileReadable := true, net := .noResponse } "p" [] =
      .error .networkFailure ∧
    run_callytics_pipeline { fileReadable := true, net := .noResponse }
        "p" [] emptyDB =
      (.error (.clientError .networkFailure), emptyDB) := by
  have h := C5_client_failure_no_write
    { fileReadable := true, net := .noResponse } "p" [] emptyDB
  exact ⟨h.2.1 rfl rfl, h.2.2.2.2 _ (h.2.1 rfl rfl)⟩

/-- C9: the upload boundary passes the task a metadata dict with exactly
the keys `user_id`, `gender` and `age` and never `topic_name` (the
serializer does not even declare such a field), so the pipeline's topic
resolution always falls through to the result document's `topic` value. -/
theorem C9_upload_metadata_keys (uid : Int) (g : String) (ag : Int) :
    (buildTaskMetadata uid g ag).map Prod.fst =
      ["user_id", "gender", "age"] ∧
    lookupKey (buildTaskMetadata uid g ag) "topic_name" = none ∧
    fileUploadSerializerFields.contains "topic_name" = false ∧
    ∀ r : Jdict, resolveTopicName (buildTaskMetadata uid g ag) r =
      (lookupKey r "topic").getD .jnull :=
  ⟨rfl, rfl, rfl, fun _ => rfl⟩

/-- C10: `persist` never rejects an utterance whose `end_time` precedes
its `start_time`: any successfully stored row keeps both frame values
exactly as supplied, and when `end_time < start_time` (with positive rate
and hop length) its derived `duration_seconds` is negative. -/
theorem C10_negative_duration (d : Jdict) (fid uid : Nat)
    (row : UtteranceRow) (f : FileRow) (setting : Option Nat)
    (h : mkUtterance fid (.jobj d) uid = .ok row) :
    lookupKey d "start_time" = some (.jint row.start_time) ∧
    lookupKey d "end_time" = some (.jint row.end_time) ∧
    (row.end_time < row.start_time → 0 < f.rate → 0 < hopLength setting →
      row.duration_seconds f setting < 0) := by
  unfold mkUtterance at h
  match hx : extractUttFields (.jobj d) with
  | .error e => rw [hx] at h; exact absurd h (by simp [Except.map])
  | .ok ff =>
      rw [hx] at h
      simp only [Except.map] at h
      have hrow : buildUtt fid uid ff = row := Except.ok.inj h
      obtain ⟨hs, he⟩ := extractUttFields_ok_times d ff hx
      subst hrow
      refine ⟨hs, he, ?_⟩
      intro hlt hrate hhop
      unfold UtteranceRow.duration_seconds
      have h1 : ((buildUtt fid uid ff).end_time -
          (buildUtt fid uid ff).start_time : ℤ) < 0 := by omega
      have h1q : (((buildUtt fid uid ff).end_time -
          (buildUtt fid uid ff).start_time : ℤ) : ℚ) < 0 := by
        exact_mod_cast h1
      have h2 : (0 : ℚ) < (hopLength setting : ℚ) := by exact_mod_cast hhop
      have h3 : (0 : ℚ) < (f.rate : ℚ) := by exact_mod_cast hrate
      exact div_neg_of_neg_of_pos (mul_neg_of_neg_of_pos h1q h2) h3

/-- C10 witness: the concrete reversed utterance (start frame 160, end
frame 0) is stored unchanged and its derived duration is negative. -/
theorem C10_witness :
    (buildUtt 0 0 reversedUttFields).duration_seconds sampleFileRow none
      < 0 := by
  have h := C10_negative_duration
    [("speaker", .jstr "agent"), ("sequence", .jint 1),
     ("start_time", .jint 160), ("end_time", .jint 0),
     ("content", .jstr "hello"), ("sentiment", .jstr "neutral"),
     ("profane", .jbool false)]
    0 0 (buildUtt 0 0 reversedUttFields) sampleFileRow none rfl
  exact h.2.2 (by decide) (by decide) (by decide)

/-- C1 counterexample: on a result document whose single utterance entry
is missing its `speaker` key, `persist` fails during the utterance phase
(with that `KeyError`), yet the `File` row is still visible afterwards —
the write is not all-or-nothing, refuting the claim as stated. -/
theorem C1_counterexample :
    (persist "p" [] sampleResultBadUtt emptyDB).1 =
      .error (.keyError "speaker") ∧
    (persist "p" [] sampleResultBadUtt emptyDB).2.files.length = 1 ∧
    (persist "p" [] sampleResultBadUtt emptyDB).2.utterances = [] :=
  ⟨rfl, rfl, rfl⟩

/-- C1 (amended): if `persist` fails after the `File` row has been
inserted (the topic resolved and every `File` field extracted, so the
failure arose in the utterance phase), the `File` row remains visible
afterwards together with the prefix of utterance rows written before the
failure; the call still commits at most this one `File` row.  The source
wraps the inserts in no transaction, so the write is sequential, not
all-or-nothing. -/
theorem C1_failure_leaves_file_row (a : String) (m r : Jdict) (db : DB)
    (e : PipelineError) (db2 : DB)
    (h : persist a m r db = (.error e, db2))
    (htn : ((resolveTopicName m r).asString).isSome = true)
    (hex : exceptOk (extractFileFields r) = true) :
    ∃ frow rows,
      db2.files = db.files ++ [frow] ∧
      frow.id = db.nextFileId ∧
      db2.utterances = db.utterances ++ rows ∧
      rows.length ≤ (utterancesOf r).length ∧
      ∀ u ∈ rows, u.file = frow.id :=
  persist_err_after_file a m r db e db2 h htn hex

/-- C1 witness: the counterexample input instantiates the amended claim:
the failed call left exactly the one `File` row. -/
theorem C1_witness :
    ∃ frow rows,
      (persist "p" [] sampleResultBadUtt emptyDB).2.files =
        emptyDB.files ++ [frow] ∧
      frow.id = emptyDB.nextFileId ∧
      (persist "p" [] sampleResultBadUtt emptyDB).2.utterances =
        emptyDB.utterances ++ rows ∧
      rows.length ≤ (utterancesOf sampleResultBadUtt).length ∧
      ∀ u ∈ rows, u.file = frow.id :=
  C1_failure_leaves_file_row "p" [] sampleResultBadUtt emptyDB
    (.keyError "speaker") (persist "p" [] sampleResultBadUtt emptyDB).2
    rfl rfl rfl

/-- C2: a successful `persist` appends exactly one `File` row, whose id is
the returned identifier, and appends exactly one `Utterance` row per entry
of `result.utterances` (none when the key is absent), in entry order, each
referencing the new `File` row. -/
theorem C2_one_file_ordered_utterances (a : String) (m r : Jdict) (db : DB)
    (fid : Nat) (db2 : DB) (h : persist a m r db = (.ok fid, db2)) :
    (∃ frow, db2.files = db.files ++ [frow] ∧ frow.id = fid) ∧
    (∃ rows,
      db2.utterances = db.utterances ++ rows ∧
      rows.length = (utterancesOf r).length ∧
      (∀ u ∈ rows, u.file = fid) ∧
      (∀ i (hi : i < rows.length) (hj : i < (utterancesOf r).length),
        mkUtterance fid ((utterancesOf r).get ⟨i, hj⟩)
            ((rows.get ⟨i, hi⟩).id) = .ok (rows.get ⟨i, hi⟩)) ∧
      (lookupKey r "utterances" = none → rows = [])) := by
  obtain ⟨h1, h2, ⟨tid, ff, hex, hfiles⟩, hrows⟩ :=
    persist_ok a m r db fid db2 h
  exact ⟨⟨buildFileRow fid tid a ff, hfiles, rfl⟩, hrows⟩

/-- C2 witness: the sample document persists into exactly one `File` row
with id 0 and its single utterance row. -/
theorem C2_witness :
    (∃ frow, (persist "p" [] sampleResult emptyDB).2.files =
      emptyDB.files ++ [frow] ∧ frow.id = 0) ∧
    (∃ rows,
      (persist "p" [] sampleResult emptyDB).2.utterances =
        emptyDB.utterances ++ rows ∧
      rows.length = (utterancesOf sampleResult).length ∧
      (∀ u ∈ rows, u.file = 0) ∧
      (∀ i (hi : i < rows.length)
          (hj : i < (utterancesOf sampleResult).length),
        mkUtterance 0 ((utterancesOf sampleResult).get ⟨i, hj⟩)
            ((rows.get ⟨i, hi⟩).id) = .ok (rows.get ⟨i, hi⟩)) ∧
      (lookupKey sampleResult "utterances" = none → rows = [])) :=
  C2_one_file_ordered_utterances "p" [] sampleResult emptyDB 0
    (persist "p" [] sampleResult emptyDB).2 rfl

/-- C3: when a required `File` field is missing from the result document
(and no present field is of the wrong shape, and the topic resolves),
`persist` reports a `KeyError` for a missing required key and neither the
`File` nor the `Utterance` table changes: no partially-populated `File`
row is ever created. -/
theorem C3_missing_required_field (r : Jdict) (k : String)
    (hk : k ∈ requiredFileKeys) (hmiss : lookupKey r k = none)
    (hnotype : ∀ j, extractFileFields r ≠ .error (.typeError j))
    (a : String) (m : Jdict) (db : DB) (tname : String)
    (htn : (resolveTopicName m r).asString = some tname) :
    ∃ j, j ∈ requiredFileKeys ∧ lookupKey r j = none ∧
      (persist a m r db).1 = .error (.keyError j) ∧
      (persist a m r db).2.files = db.files ∧
      (persist a m r db).2.utterances = db.utterances := by
  rcases extract_trichotomy r with ⟨hok, hpres⟩ | ⟨j, hj, hnone, herr⟩ |
    ⟨j, herr⟩
  · have := hpres k hk
    rw [hmiss] at this
    exact absurd this (by simp)
  · obtain ⟨h1, h2, h3⟩ :=
      persist_extract_err a m r db tname (.keyError j) htn herr
    exact ⟨j, hj, hnone, h1, h2, h3⟩
  · exact absurd herr (hnotype j)

/-- C3 witness: with the `rate` key removed from the sample document,
`persist` raises the `KeyError` for `rate` and writes no row. -/
theorem C3_witness :
    ∃ j, j ∈ requiredFileKeys ∧ lookupKey sampleResultNoRate j = none ∧
      (persist "p" [] sampleResultNoRate emptyDB).1 =
        .error (.keyError j) ∧
      (persist "p" [] sampleResultNoRate emptyDB).2.files =
        emptyDB.files ∧
      (persist "p" [] sampleResultNoRate emptyDB).2.utterances =
        emptyDB.utterances := by
  refine C3_missing_required_field sampleResultNoRate "rate" (by decide)
    rfl ?_ "p" [] emptyDB "X" rfl
  intro j hcontra
  have hre : extractFileFields sampleResultNoRate =
      .error (.keyError "rate") := rfl
  rw [hre] at hcontra
  exact PipelineError.noConfusion (Except.error.inj hcontra)

/-- C6 counterexample: with `topic_name` present but equal to the empty
string, the source's Python `or` falls through to the result document's
`topic` ("X"): the Topic row created is named "X", not the present
`topic_name` value, refuting "the Topic name is supplied_metadata.topic_name
if present". -/
theorem C6_counterexample :
    lookupKey cexMeta "topic_name" = some (.jstr "") ∧
    resolveTopicName cexMeta sampleResult = .jstr "X" ∧
    (persist "p" cexMeta sampleResult emptyDB).2.topics =
      [{ id := 0, name := "X" }] ∧
    ("X" : String) ≠ "" :=
  ⟨rfl, rfl, rfl, by decide⟩

/-- C6 (amended): the topic name is `supplied_metadata.topic_name` when
present and truthy (in particular non-empty), otherwise
`result.topic`; the topic is looked up by exact name and a row is created
only when no row with that name exists, so a repeat use of the same name
reuses the existing row instead of creating another. -/
theorem C6_topic_resolution (m r : Jdict) (s : String) (db : DB) :
    (∀ v, lookupKey m "topic_name" = some v → v.truthy = true →
      resolveTopicName m r = v) ∧
    (∀ v, lookupKey m "topic_name" = some v → v.truthy = false →
      resolveTopicName m r = (lookupKey r "topic").getD .jnull) ∧
    (lookupKey m "topic_name" = none →
      resolveTopicName m r = (lookupKey r "topic").getD .jnull) ∧
    (∀ t, t ∈ db.topics → t.name = s → (getOrCreateTopic s db).2 = db) ∧
    ((∀ t ∈ db.topics, t.name ≠ s) →
      (getOrCreateTopic s db).2.topics =
        db.topics ++ [{ id := db.nextTopicId, name := s }]) := by
  refine ⟨?_, ?_, ?_, ?_, ?_⟩
  · intro v hv htr
    simp [resolveTopicName, hv, htr]
  · intro v hv htr
    simp [resolveTopicName, hv, htr]
  · intro hv
    simp [resolveTopicName, hv, JValue.truthy]
  · intro t ht hname
    have h2 : (db.topics.find? (fun t0 => t0.name == s)).isSome = true := by
      rw [List.find?_isSome]
      exact ⟨t, ht, by simp [hname]⟩
    obtain ⟨x, hx⟩ := Option.isSome_iff_exists.mp h2
    unfold getOrCreateTopic
    rw [hx]
  · intro hall
    have hx : db.topics.find? (fun t0 => t0.name == s) = none := by
      rw [List.find?_eq_none]
      intro x hmem
      simp [hall x hmem]
    unfold getOrCreateTopic
    rw [hx]

/-- C6 witness: a truthy `topic_name` wins; looking up the name "X" in
the database produced by the sample persist leaves it unchanged (the
existing Topic row is reused). -/
theorem C6_witness :
    resolveTopicName [("topic_name", JValue.jstr "T")] sampleResult =
      .jstr "T" ∧
    (getOrCreateTopic "X" (persist "p" [] sampleResult emptyDB).2).2 =
      (persist "p" [] sampleResult emptyDB).2 := by
  have h := C6_topic_resolution [("topic_name", JValue.jstr "T")]
    sampleResult "X" (persist "p" [] sampleResult emptyDB).2
  refine ⟨h.1 (.jstr "T") rfl rfl, ?_⟩
  refine h.2.2.2.1 { id := 0, name := "X" } ?_ rfl
  have htop : (persist "p" [] sampleResult emptyDB).2.topics =
      [{ id := 0, name := "X" }] := rfl
  rw [htop]
  exact List.mem_singleton.mpr rfl

/-- C7: `EmotionScore` rejects a second row for an already-used
`(session, actor)` pair, and `Category`, `ScriptMetric` and
`ResultClassification` each reject a second row for an already-used
session; consequently a database in which these keys are pairwise
distinct keeps that property across successful inserts (at most one row
per key). -/
theorem C7_uniqueness (db : ConsultDB) (r1 : EmotionScoreRow)
    (r2 : CategoryRow) (r3 : ScriptMetricRow)
    (r4 : ResultClassificationRow) :
    ((∃ r0 ∈ db.emotion_scores,
        r0.session = r1.session ∧ r0.actor = r1.actor) →
      insertEmotionScore db r1 = .error .uniqueViolation) ∧
    ((∃ r0 ∈ db.categories, r0.session = r2.session) →
      insertCategory db r2 = .error .uniqueViolation) ∧
    ((∃ r0 ∈ db.script_metrics, r0.session = r3.session) →
      insertScriptMetric db r3 = .error .uniqueViolation) ∧
    ((∃ r0 ∈ db.results, r0.session = r4.session) →
      insertResultClassification db r4 = .error .uniqueViolation) ∧
    (List.Pairwise (fun x y => x.session = y.session → x.actor ≠ y.actor)
        db.emotion_scores →
      ∀ db2, insertEmotionScore db r1 = .ok db2 →
        List.Pairwise (fun x y => x.session = y.session → x.actor ≠ y.actor)
          db2.emotion_scores) ∧
    (List.Pairwise (fun x y => x.session ≠ y.session) db.categories →
      ∀ db2, insertCategory db r2 = .ok db2 →
        List.Pairwise (fun x y => x.session ≠ y.session) db2.categories) ∧
    (List.Pairwise (fun x y => x.session ≠ y.session) db.script_metrics →
      ∀ db2, insertScriptMetric db r3 = .ok db2 →
        List.Pairwise (fun x y => x.session ≠ y.session)
          db2.script_metrics) ∧
    (List.Pairwise (fun x y => x.session ≠ y.session) db.results →
      ∀ db2, insertResultClassification db r4 = .ok db2 →
        List.Pairwise (fun x y => x.session ≠ y.session) db2.results) := by
  refine ⟨?_, ?_, ?_, ?_, ?_, ?_, ?_, ?_⟩
  · rintro ⟨r0, hr0, hs, ha⟩
    unfold insertEmotionScore
    rw [if_pos]
    rw [List.any_eq_true]
    exact ⟨r0, hr0, by simp [hs, ha]⟩
  · rintro ⟨r0, hr0, hs⟩
    unfold insertCategory
    rw [if_pos]
    rw [List.any_eq_true]
    exact ⟨r0, hr0, by simp [hs]⟩
  · rintro ⟨r0, hr0, hs⟩
    unfold insertScriptMetric
    rw [if_pos]
    rw [List.any_eq_true]
    exact ⟨r0, hr0, by simp [hs]⟩
  · rintro ⟨r0, hr0, hs⟩
    unfold insertResultClassification
    rw [if_pos]
    rw [List.any_eq_true]
    exact ⟨r0, hr0, by simp [hs]⟩
  · intro hp db2 hins
    unfold insertEmotionScore at hins
    match hc : db.emotion_scores.any
        (fun r0 => r0.session == r1.session && r0.actor == r1.actor) with
    | true => rw [hc] at hins; simp at hins
    | false =>
        rw [hc] at hins
        simp only [Bool.false_eq_true, if_false] at hins
        obtain rfl := (Except.ok.inj hins).symm
        simp only
        apply List.pairwise_append.mpr
        refine ⟨hp, List.pairwise_singleton _ _, ?_⟩
        intro x hx y hy
        obtain rfl := List.mem_singleton.mp hy
        have hfx := List.any_eq_false.mp hc x hx
        intro hsx
        simp [hsx] at hfx
        exact hfx
  · intro hp db2 hins
    unfold insertCategory at hins
    match hc : db.categories.any (fun r0 => r0.session == r2.session) with
    | true => rw [hc] at hins; simp at hins
    | false =>
        rw [hc] at hins
        simp only [Bool.false_eq_true, if_false] at hins
        obtain rfl := (Except.ok.inj hins).symm
        simp only
        apply List.pairwise_append.mpr
        refine ⟨hp, List.pairwise_singleton _ _, ?_⟩
        intro x hx y hy
        obtain rfl := List.mem_singleton.mp hy
        have hfx := List.any_eq_false.mp hc x hx
        simpa using hfx
  · intro hp db2 hins
    unfold insertScriptMetric at hins
    match hc : db.script_metrics.any (fun r0 => r0.session == r3.session) with
    | true => rw [hc] at hins; simp at hins
    | false =>
        rw [hc] at hins
        simp only [Bool.false_eq_true, if_false] at hins
        obtain rfl := (Except.ok.inj hins).symm
        simp only
        apply List.pairwise_append.mpr
        refine ⟨hp, List.pairwise_singleton _ _, ?_⟩
        intro x hx y hy
        obtain rfl := List.mem_singleton.mp hy
        have hfx := List.any_eq_false.mp hc x hx
        simpa using hfx
  · intro hp db2 hins
    unfold insertResultClassification at hins
    match hc : db.results.any (fun r0 => r0.session == r4.session) with
    | true => rw [hc] at hins; simp at hins
    | false =>
        rw [hc] at hins
        simp only [Bool.false_eq_true, if_false] at hins
        obtain rfl := (Except.ok.inj hins).symm
        simp only
        apply List.pairwise_append.mpr
        refine ⟨hp, List.pairwise_singleton _ _, ?_⟩
        intro x hx y hy
        obtain rfl := List.mem_singleton.mp hy
        have hfx := List.any_eq_false.mp hc x hx
        simpa using hfx

/-- C7 witness: on the sample consultlytics database, a second
`EmotionScore` row for (s1, agent) and second `Category`, `ScriptMetric`
and `ResultClassification` rows for session s1 are all rejected. -/
theorem C7_witness :
    insertEmotionScore sampleConsultDB { sampleEmotion with star5 := 0 } =
      .error .uniqueViolation ∧
    insertCategory sampleConsultDB { sampleCategory with label_id := 9 } =
      .error .uniqueViolation ∧
    insertScriptMetric sampleConsultDB
      { sampleScriptMetric with alternative_count := 3 } =
      .error .uniqueViolation ∧
    insertResultClassification sampleConsultDB
      { sampleResultClass with label := "bad" } =
      .error .uniqueViolation := by
  have h := C7_uniqueness sampleConsultDB
    { sampleEmotion with star5 := 0 } { sampleCategory with label_id := 9 }
    { sampleScriptMetric with alternative_count := 3 }
    { sampleResultClass with label := "bad" }
  refine ⟨h.1 ⟨sampleEmotion, ?_, rfl, rfl⟩, h.2.1 ⟨sampleCategory, ?_, rfl⟩,
    h.2.2.1 ⟨sampleScriptMetric, ?_, rfl⟩,
    h.2.2.2.1 ⟨sampleResultClass, ?_, rfl⟩⟩ <;>
    simp [sampleConsultDB]

/-- C8: `persist` deduplicates nothing: replaying the very same call on
the resulting database succeeds again and yields a second, independent
`File` row with a distinct identifier, each call with its own full set of
utterance rows — `persist` is not idempotent. -/
theorem C8_not_idempotent (a : String) (m r : Jdict) (db : DB)
    (fid1 : Nat) (db1 : DB) (h : persist a m r db = (.ok fid1, db1)) :
    ∃ fid2 db2, persist a m r db1 = (.ok fid2, db2) ∧
      fid1 ≠ fid2 ∧
      (∃ frow1 frow2,
        db1.files = db.files ++ [frow1] ∧
        db2.files = db.files ++ [frow1, frow2] ∧
        frow1.id = fid1 ∧ frow2.id = fid2) ∧
      db2.utterances.length =
        db.utterances.length + 2 * (utterancesOf r).length := by
  have hok1 : exceptOk (persist a m r db).1 = true := by rw [h]; rfl
  have hok2 : exceptOk (persist a m r db1).1 = true := by
    rw [persist_isOk_congr a m r db1 db]; exact hok1
  obtain ⟨x, hx⟩ := exceptOk_eq_ok hok2
  have hpair : persist a m r db1 = (.ok x, (persist a m r db1).2) := by
    rw [← hx]
  obtain ⟨hfid1, hnf1, ⟨tid, ff, hex, hfiles1⟩,
    ⟨rows1, hutt1, hlen1, hf1, hi1, hn1⟩⟩ := persist_ok a m r db fid1 db1 h
  obtain ⟨hfid2, hnf2, ⟨tid2, ff2, hex2, hfiles2⟩,
    ⟨rows2, hutt2, hlen2, hf2, hi2, hn2⟩⟩ :=
    persist_ok a m r db1 x (persist a m r db1).2 hpair
  refine ⟨x, (persist a m r db1).2, hpair, ?_, ?_, ?_⟩
  · have e1 : fid1 = db.nextFileId := hfid1
    have e2 : x = db.nextFileId + 1 := by rw [hfid2, hnf1]
    omega
  · refine ⟨buildFileRow fid1 tid a ff, buildFileRow x tid2 a ff2,
      hfiles1, ?_, rfl, rfl⟩
    rw [hfiles2, hfiles1]
    simp
  · rw [hutt2, hutt1]
    simp [hlen1, hlen2]
    omega

/-- C8 witness: persisting the sample document twice from the empty
database yields two `File` rows with ids 0 and 1 and two utterance rows. -/
theorem C8_witness :
    ∃ fid2 db2,
      persist "p" [] sampleResult
          (persist "p" [] sampleResult emptyDB).2 = (.ok fid2, db2) ∧
      (0 : Nat) ≠ fid2 ∧
      (∃ frow1 frow2,
        (persist "p" [] sampleResult emptyDB).2.files =
          emptyDB.files ++ [frow1] ∧
        db2.files = emptyDB.files ++ [frow1, frow2] ∧
        frow1.id = 0 ∧ frow2.id = fid2) ∧
      db2.utterances.length =
        emptyDB.utterances.length +
          2 * (utterancesOf sampleResult).length :=
  C8_not_idempotent "p" [] sampleResult emptyDB 0
    (persist "p" [] sampleResult emptyDB).2 rfl
